import Mathlib

/-!
# Verification of the SmartFinBD investment recommendation engine

Shallow embedding of the `InvestmentRecommendationService` core
(`src/utils/securityValidator.ts`) and the risk-assessment scorer
(`src/screens/profile/RiskAssessmentScreen.tsx`).

Modelling conventions:
* JavaScript numbers are modelled as `ℚ`; the inputs and constants in the
  engine are exact decimals, and no claim hinges on binary floating-point
  rounding at a tier boundary.  `0.6` and `0.4` denote the exact rationals.
* `Math.round` is modelled by `jsRound`, JavaScript's round-half-up.
* The two divisions in the suitability scorer may divide by zero; JavaScript
  then produces `Infinity`/`-Infinity`/`NaN`, and the surrounding code only
  compares the result with `>=`.  We model this with the `JsNum` type and
  JavaScript's comparison semantics (`NaN >= x` is false, `Infinity >= x`
  is true).
* Bengali descriptive strings (names, pros, cons, reasoning) and the
  effectful record fields (`id` built from `Date.now()`, `createdAt`) carry
  no computational meaning for the verified properties and are omitted from
  the embedded records.
* `Array.prototype.sort` (stable since ES2019) with the comparator
  `(a, b) => b.suitabilityScore - a.suitabilityScore` is modelled by
  `List.insertionSort` with the corresponding total preorder: both are
  stable sorts for the same preorder, hence produce the same list.
-/

namespace SmartFinBD

/-- JavaScript `Math.round`: round half toward positive infinity. -/
def jsRound (q : ℚ) : ℤ := ⌊q + 1/2⌋

/-- Result of a JavaScript division that may divide by zero. -/
inductive JsNum where
  | num (q : ℚ)
  | posInf
  | negInf
  | nan
deriving DecidableEq

/-- JavaScript division `a / b` on exact inputs: `x/0` is `±Infinity` for
`x ≠ 0` and `0/0` is `NaN` (the divisor `0` is `+0`). -/
def jsDiv (a b : ℚ) : JsNum :=
  if b = 0 then
    if a = 0 then .nan else if 0 < a then .posInf else .negInf
  else .num (a / b)

/-- JavaScript `x >= q` for the result of a division: `NaN` compares false,
`Infinity` compares true. -/
def JsNum.jsGe (x : JsNum) (q : ℚ) : Bool :=
  match x with
  | .num a => decide (q ≤ a)
  | .posInf => true
  | .negInf => false
  | .nan => false

/-- `enum RiskLevel` from `@/types`. -/
inductive RiskLevel where
  | low
  | medium
  | high
deriving DecidableEq

/-- `enum RiskTolerance` from `@/types`. -/
inductive RiskTolerance where
  | conservative
  | moderate
  | aggressive
deriving DecidableEq

/-- `enum InvestmentType` from `@/types` (members used by the catalog). -/
inductive InvestmentType where
  | sanchayapatra
  | dps
  | fixed_deposit
  | mutual_fund
  | stock
  | bond
deriving DecidableEq

/-- The `category` union type of `BangladeshInvestmentOption`. -/
inductive Category where
  | government
  | bank
  | stock
  | mutual_fund
  | bond
  | sanchayapatra
deriving DecidableEq

/-- `BangladeshInvestmentOption`, keeping the fields the engine computes
with (descriptive Bengali strings omitted). -/
structure BangladeshInvestmentOption where
  type : InvestmentType
  expectedReturn : ℚ
  minInvestment : ℚ
  riskLevel : RiskLevel
  liquidityDays : ℚ
  taxBenefit : Bool
  category : Category
deriving DecidableEq

/-- `User` (the engine reads `id` and `age`). -/
structure User where
  id : String
  age : ℚ

/-- `FinancialProfile` fields read by the engine. -/
structure FinancialProfile where
  monthlyIncome : ℚ
  monthlyExpenses : ℚ
  currentSavings : ℚ
  dependents : ℚ

/-- `RiskAssessment` fields read by the engine. -/
structure RiskAssessment where
  score : ℚ
  tolerance : RiskTolerance

/-- `InvestmentRecommendation` fields produced deterministically
(`id`/`createdAt` are wall-clock artifacts, `reasoning`/`pros`/`cons` are
descriptive strings; all are omitted). -/
structure InvestmentRecommendation where
  userId : String
  investmentType : InvestmentType
  recommendedAmount : ℚ
  expectedReturn : ℚ
  riskLevel : RiskLevel
  suitabilityScore : ℕ
deriving DecidableEq

/-- The module-level catalog `bangladeshInvestments` (computational fields). -/
def bangladeshInvestments : List BangladeshInvestmentOption :=
  [ { type := .sanchayapatra, expectedReturn := 8.5, minInvestment := 1000,
      riskLevel := .low, liquidityDays := 90, taxBenefit := true,
      category := .government },
    { type := .dps, expectedReturn := 7.2, minInvestment := 500,
      riskLevel := .low, liquidityDays := 30, taxBenefit := true,
      category := .bank },
    { type := .fixed_deposit, expectedReturn := 6.5, minInvestment := 1000,
      riskLevel := .low, liquidityDays := 30, taxBenefit := false,
      category := .bank },
    { type := .mutual_fund, expectedReturn := 12.3, minInvestment := 5000,
      riskLevel := .medium, liquidityDays := 7, taxBenefit := false,
      category := .mutual_fund },
    { type := .stock, expectedReturn := 15.8, minInvestment := 10000,
      riskLevel := .high, liquidityDays := 3, taxBenefit := false,
      category := .stock },
    { type := .bond, expectedReturn := 7.8, minInvestment := 100000,
      riskLevel := .low, liquidityDays := 180, taxBenefit := true,
      category := .government } ]

/-- The `{ stocks, bonds, government, bank }` allocation record. -/
structure Allocation where
  stocks : ℚ
  bonds : ℚ
  government : ℚ
  bank : ℚ
deriving DecidableEq

/-- `InvestmentRecommendationService.calculateAssetAllocation`. -/
def calculateAssetAllocation (age : ℚ) (riskTolerance : RiskTolerance) :
    Allocation :=
  let stockAllocation : ℚ := 100 - age
  let stockAllocation : ℚ :=
    match riskTolerance with
    | .conservative => max (stockAllocation - 20) 10
    | .aggressive => min (stockAllocation + 20) 80
    | .moderate => stockAllocation
  let bondAllocation : ℚ := 100 - stockAllocation
  { stocks := stockAllocation
    bonds := bondAllocation
    government := min (bondAllocation * 0.6) 40
    bank := min (bondAllocation * 0.4) 30 }

/-- Age factor (25 points) of `calculateSuitabilityScore`. -/
def suitabilityAgeScore (investment : BangladeshInvestmentOption) (user : User) : ℕ :=
  if user.age < 30 then
    if investment.riskLevel = .high then 25
    else if investment.riskLevel = .medium then 20 else 15
  else if user.age < 50 then
    if investment.riskLevel = .medium then 25
    else if investment.riskLevel = .low then 20 else 15
  else
    if investment.riskLevel = .low then 25
    else if investment.riskLevel = .medium then 15 else 10

/-- Risk tolerance factor (25 points) of `calculateSuitabilityScore`. -/
def suitabilityRiskToleranceScore (investment : BangladeshInvestmentOption)
    (riskAssessment : RiskAssessment) : ℕ :=
  if riskAssessment.tolerance = .conservative then
    if investment.riskLevel = .low then 25 else 0
  else if riskAssessment.tolerance = .moderate then
    if investment.riskLevel = .medium then 25
    else if investment.riskLevel = .low then 20 else 10
  else
    if investment.riskLevel = .high then 25
    else if investment.riskLevel = .medium then 20 else 15

/-- Income factor (20 points) of `calculateSuitabilityScore`. -/
def suitabilityIncomeScore (financialProfile : FinancialProfile) : ℕ :=
  if 100000 ≤ financialProfile.monthlyIncome then 20
  else if 50000 ≤ financialProfile.monthlyIncome then 15
  else if 25000 ≤ financialProfile.monthlyIncome then 10
  else 5

/-- Savings capacity factor (15 points) of `calculateSuitabilityScore`:
`savingsRate = (monthlyIncome - monthlyExpenses) / monthlyIncome`, a
JavaScript division that can produce `±Infinity`/`NaN`. -/
def suitabilitySavingsScore (financialProfile : FinancialProfile) : ℕ :=
  let savingsRate := jsDiv
    (financialProfile.monthlyIncome - financialProfile.monthlyExpenses)
    financialProfile.monthlyIncome
  if savingsRate.jsGe 0.3 then 15
  else if savingsRate.jsGe 0.2 then 12
  else if savingsRate.jsGe 0.1 then 8
  else 3

/-- Dependents factor (10 points) of `calculateSuitabilityScore`. -/
def suitabilityDependentsScore (financialProfile : FinancialProfile) : ℕ :=
  if financialProfile.dependents = 0 then 10
  else if financialProfile.dependents ≤ 2 then 7
  else 3

/-- Emergency fund factor (5 points) of `calculateSuitabilityScore`:
`emergencyFundMonths = currentSavings / monthlyExpenses`, a JavaScript
division that can produce `±Infinity`/`NaN`. -/
def emergencyFundScore (financialProfile : FinancialProfile) : ℕ :=
  let emergencyFundMonths := jsDiv
    financialProfile.currentSavings financialProfile.monthlyExpenses
  if emergencyFundMonths.jsGe 6 then 5
  else if emergencyFundMonths.jsGe 3 then 3
  else 1

/-- `InvestmentRecommendationService.calculateSuitabilityScore`. -/
def calculateSuitabilityScore (investment : BangladeshInvestmentOption)
    (user : User) (financialProfile : FinancialProfile)
    (riskAssessment : RiskAssessment) : ℕ :=
  min (suitabilityAgeScore investment user +
        suitabilityRiskToleranceScore investment riskAssessment +
        suitabilityIncomeScore financialProfile +
        suitabilitySavingsScore financialProfile +
        suitabilityDependentsScore financialProfile +
        emergencyFundScore financialProfile) 100

/-- `InvestmentRecommendationService.calculateRecommendedAmount`.  The
`allocation.government || 20` (etc.) JavaScript idiom falls back to the
default when the bucket is `0` (falsy). -/
def calculateRecommendedAmount (investment : BangladeshInvestmentOption)
    (availableAmount : ℚ) (allocation : Allocation) : ℚ :=
  let percentage : ℚ :=
    match investment.category with
    | .government => if allocation.government = 0 then 20 else allocation.government
    | .bank => if allocation.bank = 0 then 20 else allocation.bank
    | .stock => if allocation.stocks = 0 then 30 else allocation.stocks
    | .mutual_fund => if allocation.stocks = 0 then 30 else allocation.stocks
    | _ => 10
  max (availableAmount * percentage / 100) investment.minInvestment

/-- The recommended-amount formula exactly as the specification words it
(category maps straight to the allocation bucket, with no fallback for a
zero bucket); compared against `calculateRecommendedAmount`. -/
def specRecommendedAmount (investment : BangladeshInvestmentOption)
    (availableAmount : ℚ) (allocation : Allocation) : ℚ :=
  let percentage : ℚ :=
    match investment.category with
    | .government => allocation.government
    | .bank => allocation.bank
    | .stock => allocation.stocks
    | .mutual_fund => allocation.stocks
    | _ => 10
  max (availableAmount * percentage / 100) investment.minInvestment

/-- `InvestmentRecommendationService.filterByRiskTolerance` (the `default`
arm of the TypeScript `switch` is unreachable for the closed enum). -/
def filterByRiskTolerance (investments : List BangladeshInvestmentOption)
    (riskTolerance : RiskTolerance) : List BangladeshInvestmentOption :=
  match riskTolerance with
  | .conservative => investments.filter (fun inv => decide (inv.riskLevel = .low))
  | .moderate => investments.filter
      (fun inv => decide (inv.riskLevel = .low ∨ inv.riskLevel = .medium))
  | .aggressive => investments

/-- The comparator `(a, b) => b.suitabilityScore - a.suitabilityScore`
as the total preorder it sorts by. -/
def recOrder (a b : InvestmentRecommendation) : Prop :=
  b.suitabilityScore ≤ a.suitabilityScore

instance : DecidableRel recOrder :=
  fun a b =>
    inferInstanceAs (Decidable (b.suitabilityScore ≤ a.suitabilityScore))

instance : IsTotal InvestmentRecommendation recOrder :=
  ⟨fun a b => le_total b.suitabilityScore a.suitabilityScore⟩

instance : IsTrans InvestmentRecommendation recOrder :=
  ⟨fun _ _ _ hab hbc => le_trans hbc hab⟩

/-- The body of the `forEach` in `generateRecommendations`: push a
recommendation when the suitability score is at least 60 and the
recommended amount meets the minimum investment. -/
def recommendationFor (user : User) (financialProfile : FinancialProfile)
    (riskAssessment : RiskAssessment) (availableAmount : ℚ)
    (allocation : Allocation) (investment : BangladeshInvestmentOption) :
    Option InvestmentRecommendation :=
  let suitabilityScore :=
    calculateSuitabilityScore investment user financialProfile riskAssessment
  if 60 ≤ suitabilityScore then
    let recommendedAmount :=
      calculateRecommendedAmount investment availableAmount allocation
    if investment.minInvestment ≤ recommendedAmount then
      some { userId := user.id
             investmentType := investment.type
             recommendedAmount := recommendedAmount
             expectedReturn := investment.expectedReturn
             riskLevel := investment.riskLevel
             suitabilityScore := suitabilityScore }
    else none
  else none

/-- `InvestmentRecommendationService.generateRecommendations`.  The
`forEach`-and-push loop is a `filterMap` over the filtered catalog; the
stable `Array.prototype.sort` with the descending-score comparator is the
stable `insertionSort` by `recOrder`. -/
def generateRecommendations (user : User)
    (financialProfile : FinancialProfile)
    (riskAssessment : RiskAssessment) : List InvestmentRecommendation :=
  let availableAmount :=
    financialProfile.monthlyIncome - financialProfile.monthlyExpenses
  let suitableInvestments :=
    filterByRiskTolerance bangladeshInvestments riskAssessment.tolerance
  let allocation := calculateAssetAllocation user.age riskAssessment.tolerance
  let recommendations :=
    suitableInvestments.filterMap
      (recommendationFor user financialProfile riskAssessment
        availableAmount allocation)
  recommendations.insertionSort recOrder

/-- One entry of `yearlyBreakdown` (`return` is a Lean keyword, hence
`ret`). -/
structure ProjectionYear where
  year : ℕ
  investment : ℚ
  value : ℚ
  ret : ℚ
deriving DecidableEq

/-- The record returned by `calculateProjection`. -/
structure ProjectionResult where
  futureValue : ℚ
  totalInvestment : ℚ
  totalReturn : ℚ
  yearlyBreakdown : List ProjectionYear
deriving DecidableEq

/-- One iteration of the `for (let year = 1; year <= years; year++)` loop
of `calculateProjection`, acting on the state
`(totalInvestment, currentValue, yearlyBreakdown)`. -/
def projectionStep (annualReturn monthlyContribution : ℚ)
    (st : ℚ × ℚ × List ProjectionYear) (year : ℕ) :
    ℚ × ℚ × List ProjectionYear :=
  let yearlyContribution := monthlyContribution * 12
  let totalInvestment := st.1 + yearlyContribution
  let currentValue := (st.2.1 + yearlyContribution) * (1 + annualReturn / 100)
  (totalInvestment, currentValue,
    st.2.2 ++ [{ year := year
                 investment := totalInvestment
                 value := (jsRound currentValue : ℚ)
                 ret := (jsRound (currentValue - totalInvestment) : ℚ) }])

/-- `InvestmentRecommendationService.calculateProjection`. -/
def calculateProjection (amount annualReturn : ℚ) (years : ℕ)
    (monthlyContribution : ℚ := 0) : ProjectionResult :=
  let st := (List.range years).foldl
    (fun st i => projectionStep annualReturn monthlyContribution st (i + 1))
    (amount, amount, [])
  { futureValue := (jsRound st.2.1 : ℚ)
    totalInvestment := st.1
    totalReturn := (jsRound (st.2.1 - st.1) : ℚ)
    yearlyBreakdown := st.2.2 }

/-- Cumulative investment after `year` years of the reference recurrence:
`amount` plus `year` yearly contributions of `12 * monthlyContribution`. -/
def refTotalInvestment (amount monthlyContribution : ℚ) (year : ℕ) : ℚ :=
  amount + (year : ℚ) * (monthlyContribution * 12)

/-- Compounded value after `year` years of the reference recurrence:
`currentValue = (currentValue + yearlyContribution) * (1 + annualReturn/100)`
starting from `amount`. -/
def refValue (amount annualReturn monthlyContribution : ℚ) : ℕ → ℚ
  | 0 => amount
  | year + 1 =>
      (refValue amount annualReturn monthlyContribution year +
          monthlyContribution * 12) * (1 + annualReturn / 100)

/-- The breakdown entry the reference recurrence records for `year`. -/
def refEntry (amount annualReturn monthlyContribution : ℚ) (year : ℕ) :
    ProjectionYear :=
  { year := year
    investment := refTotalInvestment amount monthlyContribution year
    value := (jsRound (refValue amount annualReturn monthlyContribution year) : ℚ)
    ret := (jsRound (refValue amount annualReturn monthlyContribution year -
        refTotalInvestment amount monthlyContribution year) : ℚ) }

/-- The whole projection as the reference recurrence describes it. -/
def referenceProjection (amount annualReturn : ℚ) (years : ℕ)
    (monthlyContribution : ℚ) : ProjectionResult :=
  { futureValue :=
      (jsRound (refValue amount annualReturn monthlyContribution years) : ℚ)
    totalInvestment := refTotalInvestment amount monthlyContribution years
    totalReturn := (jsRound (refValue amount annualReturn monthlyContribution years -
        refTotalInvestment amount monthlyContribution years) : ℚ)
    yearlyBreakdown := (List.range years).map
      (fun i => refEntry amount annualReturn monthlyContribution (i + 1)) }

/-- One question of the risk questionnaire: its id and the
`(option value, option score)` pairs (Bengali labels omitted). -/
structure RiskQuestion where
  id : String
  options : List (String × ℕ)

/-- The 8 `riskQuestions` of `RiskAssessmentScreen`. -/
def riskQuestions : List RiskQuestion :=
  [ ⟨"q1", [("under25", 4), ("25to35", 3), ("35to50", 2), ("over50", 1)]⟩,
    ⟨"q2", [("none", 1), ("limited", 2), ("moderate", 3), ("extensive", 4)]⟩,
    ⟨"q3", [("capital_preservation", 1), ("income_generation", 2),
            ("balanced_growth", 3), ("aggressive_growth", 4)]⟩,
    ⟨"q4", [("short", 1), ("medium_short", 2), ("medium_long", 3), ("long", 4)]⟩,
    ⟨"q5", [("sell_immediately", 1), ("sell_some", 2), ("hold", 3), ("buy_more", 4)]⟩,
    ⟨"q6", [("very_low", 1), ("low", 2), ("moderate", 3), ("high", 4)]⟩,
    ⟨"q7", [("none", 1), ("partial", 2), ("adequate", 3), ("excellent", 4)]⟩,
    ⟨"q8", [("very_conservative", 1), ("conservative", 2),
            ("moderate", 3), ("aggressive", 4)]⟩ ]

/-- One step of the `forEach` accumulation in `calculateRiskScore`: look up
the selected answer and, when it matches an option, add its score. -/
def riskScoreStep (answers : String → Option String) (totalScore : ℕ)
    (question : RiskQuestion) : ℕ :=
  match answers question.id with
  | none => totalScore
  | some selectedAnswer =>
      match question.options.find? (fun opt => decide (opt.1 = selectedAnswer)) with
      | some option => totalScore + option.2
      | none => totalScore

/-- The raw total score computed by
`RiskAssessmentScreen.calculateRiskScore` from the answer map. -/
def calculateRiskScore (answers : String → Option String) : ℕ :=
  riskQuestions.foldl (riskScoreStep answers) 0

/-- The tolerance-tier classification at the end of `calculateRiskScore`:
`maxScore = riskQuestions.length * 4`, percentage thresholds 40 and 70. -/
def riskToleranceOfScore (totalScore : ℕ) : RiskTolerance :=
  let maxScore : ℕ := riskQuestions.length * 4
  let scorePercentage : ℚ := ((totalScore : ℚ) / (maxScore : ℚ)) * 100
  if scorePercentage ≤ 40 then .conservative
  else if scorePercentage ≤ 70 then .moderate
  else .aggressive

/-- Conservative < moderate < aggressive, for stating monotonicity. -/
def toleranceRank : RiskTolerance → ℕ
  | .conservative => 0
  | .moderate => 1
  | .aggressive => 2

/-- An answer map with every one of the 8 questions answered by one of its
own options. -/
def FullAnswers (answers : String → Option String) : Prop :=
  ∀ q ∈ riskQuestions, ∃ opt ∈ q.options, answers q.id = some opt.1

/-- A sample user for concrete runs of the pipeline. -/
def sampleUser : User := { id := "u1", age := 30 }

/-- A sample financial profile for concrete runs of the pipeline. -/
def sampleProfile : FinancialProfile :=
  { monthlyIncome := 100000, monthlyExpenses := 50000,
    currentSavings := 600000, dependents := 0 }

/-- A sample conservative risk assessment. -/
def sampleConservative : RiskAssessment := { score := 20, tolerance := .conservative }

/-- A full sample answer set for the 8 risk questions. -/
def sampleAnswers : String → Option String := fun id =>
  if id = "q1" then some "under25"
  else if id = "q2" then some "none"
  else if id = "q3" then some "balanced_growth"
  else if id = "q4" then some "long"
  else if id = "q5" then some "hold"
  else if id = "q6" then some "low"
  else if id = "q7" then some "partial"
  else if id = "q8" then some "moderate"
  else none

/-! ## Shared helper lemmas -/

lemma stocks_nonneg (age : ℚ) (tol : RiskTolerance) (h100 : age ≤ 100) :
    0 ≤ (calculateAssetAllocation age tol).stocks := by
  cases tol with
  | conservative => exact le_trans (by norm_num) (le_max_right _ _)
  | moderate =>
      show (0 : ℚ) ≤ 100 - age
      linarith
  | aggressive => exact le_min (by linarith) (by norm_num)

lemma stocks_le_82 (age : ℚ) (tol : RiskTolerance) (h18 : 18 ≤ age) :
    (calculateAssetAllocation age tol).stocks ≤ 82 := by
  cases tol with
  | conservative => exact max_le (by linarith) (by norm_num)
  | moderate =>
      show (100 : ℚ) - age ≤ 82
      linarith
  | aggressive => exact le_trans (min_le_right _ _) (by norm_num)

lemma government_pos (age : ℚ) (tol : RiskTolerance) (h18 : 18 ≤ age) :
    0 < (calculateAssetAllocation age tol).government := by
  have hs := stocks_le_82 age tol h18
  refine lt_min ?_ (by norm_num)
  show (0 : ℚ) < (100 - (calculateAssetAllocation age tol).stocks) * 0.6
  nlinarith

lemma bank_pos (age : ℚ) (tol : RiskTolerance) (h18 : 18 ≤ age) :
    0 < (calculateAssetAllocation age tol).bank := by
  have hs := stocks_le_82 age tol h18
  refine lt_min ?_ (by norm_num)
  show (0 : ℚ) < (100 - (calculateAssetAllocation age tol).stocks) * 0.4
  nlinarith

lemma recommendationFor_eq_some {user : User}
    {financialProfile : FinancialProfile} {riskAssessment : RiskAssessment}
    {availableAmount : ℚ} {allocation : Allocation}
    {investment : BangladeshInvestmentOption}
    {rec : InvestmentRecommendation}
    (h : recommendationFor user financialProfile riskAssessment
      availableAmount allocation investment = some rec) :
    rec.suitabilityScore =
        calculateSuitabilityScore investment user financialProfile
          riskAssessment ∧
      60 ≤ rec.suitabilityScore ∧
      rec.riskLevel = investment.riskLevel ∧
      rec.investmentType = investment.type ∧
      rec.recommendedAmount =
        calculateRecommendedAmount investment availableAmount allocation ∧
      investment.minInvestment ≤ rec.recommendedAmount := by
  simp only [recommendationFor] at h
  split_ifs at h with h1 h2
  · injection h with h
    subst h
    exact ⟨rfl, h1, rfl, rfl, rfl, h2⟩

lemma mem_generateRecommendations {user : User}
    {financialProfile : FinancialProfile} {riskAssessment : RiskAssessment}
    {rec : InvestmentRecommendation}
    (h : rec ∈ generateRecommendations user financialProfile riskAssessment) :
    ∃ investment ∈
        filterByRiskTolerance bangladeshInvestments riskAssessment.tolerance,
      recommendationFor user financialProfile riskAssessment
        (financialProfile.monthlyIncome - financialProfile.monthlyExpenses)
        (calculateAssetAllocation user.age riskAssessment.tolerance)
        investment = some rec := by
  unfold generateRecommendations at h
  have h' := (List.perm_insertionSort recOrder _).subset h
  rw [List.mem_filterMap] at h'
  obtain ⟨inv, hmem, heq⟩ := h'
  exact ⟨inv, hmem, heq⟩

lemma jsRound_sub_intCast (q : ℚ) (n : ℤ) :
    jsRound (q - (n : ℚ)) = jsRound q - n := by
  have h : q - (n : ℚ) + 1/2 = (q + 1/2) - (n : ℚ) := by ring
  rw [jsRound, jsRound, h, Int.floor_sub_int]

lemma projection_foldl_spec (amount annualReturn monthlyContribution : ℚ)
    (years : ℕ) :
    (List.range years).foldl
        (fun st i => projectionStep annualReturn monthlyContribution st (i + 1))
        (amount, amount, []) =
      (refTotalInvestment amount monthlyContribution years,
       refValue amount annualReturn monthlyContribution years,
       (List.range years).map
         (fun i => refEntry amount annualReturn monthlyContribution (i + 1))) := by
  induction years with
  | zero => simp [refTotalInvestment, refValue]
  | succ n ih =>
      rw [List.range_succ, List.foldl_append, ih, List.map_append]
      have hTI : refTotalInvestment amount monthlyContribution n +
          monthlyContribution * 12 =
          refTotalInvestment amount monthlyContribution (n + 1) := by
        simp only [refTotalInvestment]
        push_cast
        ring
      simp only [List.foldl_cons, List.foldl_nil, projectionStep, List.map_cons,
        List.map_nil, hTI]
      simp [refEntry, refValue]


/-- `filterByRiskTolerance` only ever removes catalog entries. -/
lemma filterByRiskTolerance_subset (investments : List BangladeshInvestmentOption)
    (riskTolerance : RiskTolerance) :
    filterByRiskTolerance investments riskTolerance ⊆ investments := by
  cases riskTolerance with
  | conservative => exact fun x hx => List.mem_of_mem_filter hx
  | moderate => exact fun x hx => List.mem_of_mem_filter hx
  | aggressive => exact fun x hx => hx

/-- C8 (as stated) is false in its `monthlyExpenses = 0` clause: with
`monthlyExpenses = 0` and `currentSavings = 0` the months division is
`0/0 = NaN`, every `>=` comparison on `NaN` is false, and the
emergency-fund subscore lands in the 1-point else tier, not the adequate
5-point tier. -/
theorem emergencyFundScore_nan_counterexample :
    emergencyFundScore
        { monthlyIncome := 50000, monthlyExpenses := 0,
          currentSavings := 0, dependents := 0 } = 1 ∧ (1 : ℕ) ≠ 5 := by
  constructor
  · norm_num [emergencyFundScore, jsDiv, JsNum.jsGe]
  · decide

/-- C8 (amended): `calculateSuitabilityScore` never raises and never
returns `NaN`: it is a total function into the integers `[0, 100]` (the
divisions feed only `>=` comparisons, which are false on `NaN`); when
`monthlyIncome = 0` (with positive expenses) the savings-rate subscore
falls to the lowest 3-point tier; and when `monthlyExpenses = 0` the
emergency-fund subscore is the adequate 5-point tier if
`currentSavings > 0`, but the 1-point tier if `currentSavings ≤ 0`
(`0/0` is `NaN`). -/
theorem calculateSuitabilityScore_safe :
    (∀ (investment : BangladeshInvestmentOption) (user : User)
        (financialProfile : FinancialProfile)
        (riskAssessment : RiskAssessment),
        calculateSuitabilityScore investment user financialProfile
            riskAssessment ≤ 100) ∧
      (∀ financialProfile : FinancialProfile,
        financialProfile.monthlyExpenses = 0 →
          emergencyFundScore financialProfile =
            if 0 < financialProfile.currentSavings then 5 else 1) ∧
      (∀ financialProfile : FinancialProfile,
        financialProfile.monthlyIncome = 0 →
          0 < financialProfile.monthlyExpenses →
            suitabilitySavingsScore financialProfile = 3) := by
  refine ⟨fun _ _ _ _ => min_le_right _ _, ?_, ?_⟩
  · intro fp h
    by_cases hs0 : fp.currentSavings = 0
    · simp [emergencyFundScore, jsDiv, h, hs0, JsNum.jsGe]
    · by_cases hp : 0 < fp.currentSavings
      · simp [emergencyFundScore, jsDiv, h, hs0, hp, JsNum.jsGe]
      · simp [emergencyFundScore, jsDiv, h, hs0, hp, JsNum.jsGe]
  · intro fp h0 hpos
    have hne : fp.monthlyExpenses ≠ 0 := ne_of_gt hpos
    have hnl : ¬ fp.monthlyExpenses < 0 := not_lt.mpr hpos.le
    simp [suitabilitySavingsScore, jsDiv, h0, hne, hnl, JsNum.jsGe]

/-- Witness for C8 at concrete profiles (expenses 0 with savings 7;
income 0 with expenses 100). -/
theorem calculateSuitabilityScore_safe_witness :
    calculateSuitabilityScore
        { type := .stock, expectedReturn := 15.8, minInvestment := 10000,
          riskLevel := .high, liquidityDays := 3, taxBenefit := false,
          category := .stock }
        { id := "u", age := 25 }
        { monthlyIncome := 50000, monthlyExpenses := 0,
          currentSavings := 7, dependents := 0 }
        { score := 10, tolerance := .aggressive } ≤ 100 ∧
      emergencyFundScore
          { monthlyIncome := 50000, monthlyExpenses := 0,
            currentSavings := 7, dependents := 0 } =
        (if (0 : ℚ) < 7 then 5 else 1) ∧
      suitabilitySavingsScore
          { monthlyIncome := 0, monthlyExpenses := 100,
            currentSavings := 0, dependents := 0 } = 3 := by
  refine ⟨calculateSuitabilityScore_safe.1 _ _ _ _, ?_, ?_⟩
  · exact calculateSuitabilityScore_safe.2.1
      { monthlyIncome := 50000, monthlyExpenses := 0,
        currentSavings := 7, dependents := 0 } rfl
  · exact calculateSuitabilityScore_safe.2.2
      { monthlyIncome := 0, monthlyExpenses := 100,
        currentSavings := 0, dependents := 0 } rfl (by norm_num)

/-- C2 (as stated) is false: the code guards each allocation bucket with
the JavaScript `|| default` idiom, so a bucket that is exactly 0 is
replaced by the default, not used as the percentage.  At age 100 with
moderate tolerance `allocation.stocks = 0`; for the mutual-fund instrument
with `availableAmount = 100000` the code returns
`max(100000 * 30 / 100, 5000) = 30000`, while the claimed bucket formula
gives `max(0, 5000) = 5000`. -/
theorem calculateRecommendedAmount_counterexample :
    calculateRecommendedAmount
        { type := .mutual_fund, expectedReturn := 12.3, minInvestment := 5000,
          riskLevel := .medium, liquidityDays := 7, taxBenefit := false,
          category := .mutual_fund } 100000
        (calculateAssetAllocation 100 .moderate) = 30000 ∧
      specRecommendedAmount
          { type := .mutual_fund, expectedReturn := 12.3, minInvestment := 5000,
            riskLevel := .medium, liquidityDays := 7, taxBenefit := false,
            category := .mutual_fund } 100000
          (calculateAssetAllocation 100 .moderate) = 5000 ∧
      (30000 : ℚ) ≠ 5000 := by
  refine ⟨?_, ?_, by norm_num⟩ <;>
    norm_num [calculateRecommendedAmount, specRecommendedAmount,
      calculateAssetAllocation, max_def]

end SmartFinBD

namespace SmartFinBD

/-- C1 (as stated) is false: at age 18 with moderate tolerance the equity
percentage is `100 - 18 = 82`, outside the claimed interval `[10, 80]`. -/
theorem calculateAssetAllocation_stocks_escapes_claimed_range :
    (calculateAssetAllocation 18 .moderate).stocks = 82 ∧
      ¬ ((calculateAssetAllocation 18 .moderate).stocks ≤ 80) := by
  constructor <;> norm_num [calculateAssetAllocation]

/-- C1 (amended): for every age in `[18, 100]` and every risk tolerance,
the allocation has stocks in `[0, 82]` (moderate reaches 82 at age 18 and 0
at age 100; conservative stays within `[10, 62]` and aggressive within
`[20, 80]`), government ≤ 40 and bank ≤ 30; the equity percentage is
`100 - age`, then conservative lowers it by 20 with a floor of 10,
aggressive raises it by 20 with a cap of 80, and moderate leaves it
unchanged. -/
theorem calculateAssetAllocation_bounds (age : ℚ) (tol : RiskTolerance)
    (h18 : 18 ≤ age) (h100 : age ≤ 100) :
    0 ≤ (calculateAssetAllocation age tol).stocks ∧
      (calculateAssetAllocation age tol).stocks ≤ 82 ∧
      (calculateAssetAllocation age tol).government ≤ 40 ∧
      (calculateAssetAllocation age tol).bank ≤ 30 ∧
      (calculateAssetAllocation age tol).stocks =
        (match tol with
         | .conservative => max ((100 - age) - 20) 10
         | .aggressive => min ((100 - age) + 20) 80
         | .moderate => 100 - age) := by
  cases tol with
  | conservative =>
      refine ⟨?_, ?_, min_le_right _ _, min_le_right _ _, rfl⟩
      · exact le_trans (by norm_num) (le_max_right _ _)
      · exact max_le (by linarith) (by norm_num)
  | moderate =>
      refine ⟨?_, ?_, min_le_right _ _, min_le_right _ _, rfl⟩
      · show (0 : ℚ) ≤ 100 - age
        linarith
      · show (100 : ℚ) - age ≤ 82
        linarith
  | aggressive =>
      refine ⟨?_, ?_, min_le_right _ _, min_le_right _ _, rfl⟩
      · exact le_min (by linarith) (by norm_num)
      · exact le_trans (min_le_right _ _) (by norm_num)

/-- Witness for C1 at age 30, moderate: hypotheses hold and so does the
conclusion. -/
theorem calculateAssetAllocation_bounds_witness :
    0 ≤ (calculateAssetAllocation 30 .moderate).stocks ∧
      (calculateAssetAllocation 30 .moderate).stocks ≤ 82 ∧
      (calculateAssetAllocation 30 .moderate).government ≤ 40 ∧
      (calculateAssetAllocation 30 .moderate).bank ≤ 30 ∧
      (calculateAssetAllocation 30 .moderate).stocks = 100 - 30 :=
  calculateAssetAllocation_bounds 30 .moderate (by norm_num) (by norm_num)

/-- C10: for every age and every risk tolerance, `stocks + bonds = 100`
exactly (bonds is defined as `100 - stocks`), while the `min` caps can make
`government + bank` fall short of `bonds` (witnessed at age 80, moderate:
40 + 30 < 80). -/
theorem calculateAssetAllocation_stocks_add_bonds :
    (∀ (age : ℚ) (tol : RiskTolerance),
        (calculateAssetAllocation age tol).stocks +
          (calculateAssetAllocation age tol).bonds = 100) ∧
      (calculateAssetAllocation 80 .moderate).government +
          (calculateAssetAllocation 80 .moderate).bank <
        (calculateAssetAllocation 80 .moderate).bonds := by
  refine ⟨fun age tol => ?_, by norm_num [calculateAssetAllocation, min_def]⟩
  show (calculateAssetAllocation age tol).stocks +
      (100 - (calculateAssetAllocation age tol).stocks) = 100
  ring


/-- C3 (as stated) is false in its degenerate clause: at `years = 0` the
code returns `futureValue = Math.round(amount)`, which differs from the
initial amount for the non-integer input `1/2` (the code yields `1`). -/
theorem calculateProjection_years0_counterexample :
    (calculateProjection (1/2) 0 0 0).futureValue = 1 ∧ ((1 : ℚ)/2) ≠ 1 := by
  constructor
  · norm_num [calculateProjection, jsRound]
  · norm_num

/-- C3 (amended): `calculateProjection` equals the reference recurrence
(for each year add `12 * monthlyContribution` to the running investment,
multiply the running value by `1 + annualReturn/100` after adding the
contribution, and record the rounded value and return); the breakdown has
exactly `years` entries; `years = 0` yields an empty breakdown with
`futureValue = round(initialAmount)` (equal to the initial amount whenever
it is an integer); and `calculateProjection(100000, 8.5, 5, 0)` has year-1
value 108500 and `totalInvestment = 100000` in every year. -/
theorem calculateProjection_spec :
    (∀ (amount annualReturn : ℚ) (years : ℕ) (monthlyContribution : ℚ),
        calculateProjection amount annualReturn years monthlyContribution =
          referenceProjection amount annualReturn years monthlyContribution) ∧
      (∀ (amount annualReturn : ℚ) (years : ℕ) (monthlyContribution : ℚ),
        (calculateProjection amount annualReturn years
            monthlyContribution).yearlyBreakdown.length = years) ∧
      (∀ (amount annualReturn monthlyContribution : ℚ),
        (calculateProjection amount annualReturn 0
            monthlyContribution).yearlyBreakdown = [] ∧
          (calculateProjection amount annualReturn 0
              monthlyContribution).futureValue = (jsRound amount : ℚ)) ∧
      ((calculateProjection 100000 8.5 5 0).yearlyBreakdown.map
          (fun e => e.value)).head? = some 108500 ∧
      (∀ e ∈ (calculateProjection 100000 8.5 5 0).yearlyBreakdown,
        e.investment = 100000) := by
  have hb : (calculateProjection 100000 8.5 5 0).yearlyBreakdown =
      (List.range 5).map (fun i => refEntry 100000 8.5 0 (i + 1)) := by
    simp [calculateProjection, projection_foldl_spec]
  refine ⟨?_, ?_, ?_, ?_, ?_⟩
  · intro amount annualReturn years monthlyContribution
    simp [calculateProjection, projection_foldl_spec, referenceProjection]
  · intro amount annualReturn years monthlyContribution
    simp [calculateProjection, projection_foldl_spec]
  · intro amount annualReturn monthlyContribution
    constructor <;> simp [calculateProjection]
  · rw [hb, show List.range 5 = [0, 1, 2, 3, 4] from rfl]
    simp only [List.map, List.head?]
    norm_num [refEntry, refValue, jsRound]
  · intro e he
    rw [hb] at he
    obtain ⟨i, hi, rfl⟩ := List.mem_map.mp he
    simp [refEntry, refTotalInvestment]

/-- Witness for C3: the equality instantiated at `(100, 0, 1, 0)` and the
per-year-investment clause at the first entry of the 5-year scenario. -/
theorem calculateProjection_spec_witness :
    calculateProjection 100 0 1 0 = referenceProjection 100 0 1 0 ∧
      ({ year := 1, investment := 100000, value := 108500, ret := 8500 } :
          ProjectionYear).investment = 100000 := by
  have hb : (calculateProjection 100000 8.5 5 0).yearlyBreakdown =
      (List.range 5).map (fun i => refEntry 100000 8.5 0 (i + 1)) := by
    simp [calculateProjection, projection_foldl_spec]
  have hf : refEntry 100000 8.5 0 (0 + 1) =
      { year := 1, investment := 100000, value := 108500, ret := 8500 } := by
    norm_num [refEntry, refValue, refTotalInvestment, jsRound]
  refine ⟨calculateProjection_spec.1 100 0 1 0,
    calculateProjection_spec.2.2.2.2 _ ?_⟩
  rw [hb, show List.range 5 = [0, 1, 2, 3, 4] from rfl]
  simp only [List.map]
  rw [hf]
  exact List.mem_cons_self _ _

/-- C7: with integer initial amount and integer monthly contribution,
`totalReturn = futureValue - totalInvestment` exactly, and every yearly
breakdown entry satisfies `return = value - investment`
(`round(currentValue - totalInvestment) = round(currentValue) -
totalInvestment` because `totalInvestment` is an integer). -/
theorem calculateProjection_return_consistency :
    ∀ (amount monthlyContribution : ℤ) (annualReturn : ℚ) (years : ℕ),
      (calculateProjection (amount : ℚ) annualReturn years
            (monthlyContribution : ℚ)).totalReturn =
          (calculateProjection (amount : ℚ) annualReturn years
              (monthlyContribution : ℚ)).futureValue -
            (calculateProjection (amount : ℚ) annualReturn years
                (monthlyContribution : ℚ)).totalInvestment ∧
        ∀ e ∈ (calculateProjection (amount : ℚ) annualReturn years
            (monthlyContribution : ℚ)).yearlyBreakdown,
          e.ret = e.value - e.investment := by
  intro a mc ar years
  have key : ∀ (y : ℕ),
      (jsRound (refValue (a : ℚ) ar (mc : ℚ) y -
          refTotalInvestment (a : ℚ) (mc : ℚ) y) : ℚ) =
        (jsRound (refValue (a : ℚ) ar (mc : ℚ) y) : ℚ) -
          refTotalInvestment (a : ℚ) (mc : ℚ) y := by
    intro y
    have hn : refTotalInvestment (a : ℚ) (mc : ℚ) y =
        ((a + y * (mc * 12) : ℤ) : ℚ) := by
      simp only [refTotalInvestment]
      push_cast
      ring
    rw [hn, jsRound_sub_intCast]
    push_cast
    ring
  have hc : calculateProjection (a : ℚ) ar years (mc : ℚ) =
      { futureValue := (jsRound (refValue (a : ℚ) ar (mc : ℚ) years) : ℚ)
        totalInvestment := refTotalInvestment (a : ℚ) (mc : ℚ) years
        totalReturn := (jsRound (refValue (a : ℚ) ar (mc : ℚ) years -
            refTotalInvestment (a : ℚ) (mc : ℚ) years) : ℚ)
        yearlyBreakdown := (List.range years).map
          (fun i => refEntry (a : ℚ) ar (mc : ℚ) (i + 1)) } := by
    simp [calculateProjection, projection_foldl_spec]
  rw [hc]
  refine ⟨key years, ?_⟩
  intro e he
  simp only [List.mem_map] at he
  obtain ⟨i, hi, rfl⟩ := he
  simpa only [refEntry] using key (i + 1)

/-- Witness for C7 at `(7, 0%, 1 year, 0)`, with the per-entry clause
discharged at the single breakdown entry. -/
theorem calculateProjection_return_consistency_witness :
    (calculateProjection ((7 : ℤ) : ℚ) 0 1 ((0 : ℤ) : ℚ)).totalReturn =
        (calculateProjection ((7 : ℤ) : ℚ) 0 1 ((0 : ℤ) : ℚ)).futureValue -
          (calculateProjection ((7 : ℤ) : ℚ) 0 1 ((0 : ℤ) : ℚ)).totalInvestment ∧
      ({ year := 1, investment := 7, value := 7, ret := 0 } :
          ProjectionYear).ret = 7 - 7 := by
  have h := calculateProjection_return_consistency 7 0 0 1
  refine ⟨h.1, ?_⟩
  have hm : ({ year := 1, investment := 7, value := 7, ret := 0 } :
      ProjectionYear) ∈
      (calculateProjection ((7 : ℤ) : ℚ) 0 1 ((0 : ℤ) : ℚ)).yearlyBreakdown := by
    norm_num [calculateProjection, projectionStep, jsRound,
      List.range_succ]
  exact h.2 _ hm



/-- Concrete run of the whole pipeline: a 30-year-old conservative user
with income 100000, expenses 50000, savings 600000 and no dependents gets
the four low-risk instruments, each with suitability score 95, in catalog
order (all ties). -/
lemma generateRecommendations_sample :
    generateRecommendations sampleUser sampleProfile sampleConservative =
      [ { userId := "u1", investmentType := .sanchayapatra,
          recommendedAmount := 15000, expectedReturn := 8.5,
          riskLevel := .low, suitabilityScore := 95 },
        { userId := "u1", investmentType := .dps,
          recommendedAmount := 10000, expectedReturn := 7.2,
          riskLevel := .low, suitabilityScore := 95 },
        { userId := "u1", investmentType := .fixed_deposit,
          recommendedAmount := 10000, expectedReturn := 6.5,
          riskLevel := .low, suitabilityScore := 95 },
        { userId := "u1", investmentType := .bond,
          recommendedAmount := 100000, expectedReturn := 7.8,
          riskLevel := .low, suitabilityScore := 95 } ] := by
  norm_num [generateRecommendations, sampleUser, sampleProfile,
    sampleConservative, filterByRiskTolerance, bangladeshInvestments,
    calculateAssetAllocation, recommendationFor, calculateSuitabilityScore,
    suitabilityAgeScore, suitabilityRiskToleranceScore,
    suitabilityIncomeScore, suitabilitySavingsScore,
    suitabilityDependentsScore, emergencyFundScore, jsDiv, JsNum.jsGe,
    calculateRecommendedAmount, List.insertionSort, List.orderedInsert,
    recOrder, min_def, max_def, List.filterMap_cons,
    show (RiskLevel.low = RiskLevel.medium) = False from by decide,
    show (RiskLevel.low = RiskLevel.high) = False from by decide,
    show (RiskLevel.medium = RiskLevel.low) = False from by decide,
    show (RiskLevel.medium = RiskLevel.high) = False from by decide,
    show (RiskLevel.high = RiskLevel.low) = False from by decide,
    show (RiskLevel.high = RiskLevel.medium) = False from by decide,
    show (RiskTolerance.conservative = RiskTolerance.moderate) = False from by decide,
    show (RiskTolerance.moderate = RiskTolerance.conservative) = False from by decide,
    show (RiskTolerance.aggressive = RiskTolerance.conservative) = False from by decide,
    show (RiskTolerance.aggressive = RiskTolerance.moderate) = False from by decide]

/-- C2 (amended): `calculateRecommendedAmount` is
`max(availableAmount * pct / 100, minInvestment)` where `pct` is the
allocation bucket mapped from the category — exactly as the spec words it
whenever no bucket is zero — but a zero bucket is replaced by the fallback
default (20 government, 20 bank, 30 stocks; other categories use 10);
the result is always at least `minInvestment`, so every recommendation
emitted by `generateRecommendations` has `recommendedAmount` at least its
instrument's minimum (the skip-if-below-minimum check never fires); and
for every catalog instrument (all of which have positive minimums),
every age in [18, 100] and every tolerance, `availableAmount ≤ 0` gives
`recommendedAmount = minInvestment` exactly. -/
theorem calculateRecommendedAmount_spec :
    (∀ (investment : BangladeshInvestmentOption) (availableAmount : ℚ)
        (allocation : Allocation),
        allocation.government ≠ 0 → allocation.bank ≠ 0 →
        allocation.stocks ≠ 0 →
        calculateRecommendedAmount investment availableAmount allocation =
          specRecommendedAmount investment availableAmount allocation) ∧
      (∀ (investment : BangladeshInvestmentOption) (availableAmount : ℚ)
          (allocation : Allocation),
        investment.minInvestment ≤
          calculateRecommendedAmount investment availableAmount allocation) ∧
      (∀ (user : User) (financialProfile : FinancialProfile)
          (riskAssessment : RiskAssessment),
        ∀ rec ∈ generateRecommendations user financialProfile riskAssessment,
          ∃ investment ∈ bangladeshInvestments,
            rec.investmentType = investment.type ∧
              investment.minInvestment ≤ rec.recommendedAmount) ∧
      (∀ investment ∈ bangladeshInvestments, 0 < investment.minInvestment) ∧
      (∀ investment : BangladeshInvestmentOption,
        0 < investment.minInvestment →
        ∀ (age : ℚ) (tol : RiskTolerance) (availableAmount : ℚ),
          18 ≤ age → age ≤ 100 → availableAmount ≤ 0 →
            calculateRecommendedAmount investment availableAmount
                (calculateAssetAllocation age tol) =
              investment.minInvestment) := by
  refine ⟨?_, ?_, ?_, ?_, ?_⟩
  · intro inv avail alloc hg hb hs
    obtain ⟨t, er, mi, rl, ld, tb, cat⟩ := inv
    cases cat <;>
      simp [calculateRecommendedAmount, specRecommendedAmount, hg, hb, hs]
  · intro inv avail alloc
    exact le_max_right _ _
  · intro u fp ra rec hrec
    obtain ⟨inv, hmem, heq⟩ := mem_generateRecommendations hrec
    obtain ⟨-, -, -, htype, -, hmin⟩ := recommendationFor_eq_some heq
    exact ⟨inv, filterByRiskTolerance_subset _ _ hmem, htype, hmin⟩
  · intro inv hinv
    fin_cases hinv <;> norm_num
  · intro inv hmininv age tol avail h18 h100 hav
    have hg := government_pos age tol h18
    have hbk := bank_pos age tol h18
    have hs0 := stocks_nonneg age tol h100
    have key : ∀ pct : ℚ, 0 < pct →
        max (avail * pct / 100) inv.minInvestment = inv.minInvestment := by
      intro pct hpct
      refine max_eq_right ?_
      have hprod : avail * pct ≤ 0 :=
        mul_nonpos_iff.mpr (Or.inr ⟨hav, hpct.le⟩)
      linarith
    obtain ⟨t, er, mi, rl, ld, tb, cat⟩ := inv
    cases cat with
    | government =>
        simp only [calculateRecommendedAmount]
        rw [if_neg (ne_of_gt hg)]
        exact key _ hg
    | bank =>
        simp only [calculateRecommendedAmount]
        rw [if_neg (ne_of_gt hbk)]
        exact key _ hbk
    | stock =>
        simp only [calculateRecommendedAmount]
        by_cases hst : (calculateAssetAllocation age tol).stocks = 0
        · rw [if_pos hst]
          exact key 30 (by norm_num)
        · rw [if_neg hst]
          exact key _ (lt_of_le_of_ne hs0 (Ne.symm hst))
    | mutual_fund =>
        simp only [calculateRecommendedAmount]
        by_cases hst : (calculateAssetAllocation age tol).stocks = 0
        · rw [if_pos hst]
          exact key 30 (by norm_num)
        · rw [if_neg hst]
          exact key _ (lt_of_le_of_ne hs0 (Ne.symm hst))
    | bond =>
        simp only [calculateRecommendedAmount]
        exact key 10 (by norm_num)
    | sanchayapatra =>
        simp only [calculateRecommendedAmount]
        exact key 10 (by norm_num)

/-- Witness for C2: the spec formula at a nonzero allocation, the
minimum-investment bound inside a concrete conservative run, and the
`availableAmount ≤ 0` case at age 30 with the sanchayapatra instrument. -/
theorem calculateRecommendedAmount_spec_witness :
    calculateRecommendedAmount
        { type := .mutual_fund, expectedReturn := 12.3, minInvestment := 5000,
          riskLevel := .medium, liquidityDays := 7, taxBenefit := false,
          category := .mutual_fund } 100
        { stocks := 50, bonds := 50, government := 30, bank := 20 } =
      specRecommendedAmount
        { type := .mutual_fund, expectedReturn := 12.3, minInvestment := 5000,
          riskLevel := .medium, liquidityDays := 7, taxBenefit := false,
          category := .mutual_fund } 100
        { stocks := 50, bonds := 50, government := 30, bank := 20 } ∧
      (∃ investment ∈ bangladeshInvestments,
        ({ userId := "u1", investmentType := .sanchayapatra,
           recommendedAmount := 15000, expectedReturn := 8.5,
           riskLevel := .low, suitabilityScore := 95 } :
            InvestmentRecommendation).investmentType = investment.type ∧
          investment.minInvestment ≤ 15000) ∧
      calculateRecommendedAmount
          { type := .sanchayapatra, expectedReturn := 8.5,
            minInvestment := 1000, riskLevel := .low, liquidityDays := 90,
            taxBenefit := true, category := .government } (-5)
          (calculateAssetAllocation 30 .moderate) = 1000 := by
  refine ⟨calculateRecommendedAmount_spec.1 _ _ _ (by norm_num) (by norm_num)
    (by norm_num), ?_, ?_⟩
  · refine calculateRecommendedAmount_spec.2.2.1 sampleUser sampleProfile
      sampleConservative _ ?_
    rw [generateRecommendations_sample]
    exact List.mem_cons_self _ _
  · exact calculateRecommendedAmount_spec.2.2.2.2 _ (by norm_num) 30 .moderate
      (-5) (by norm_num) (by norm_num) (by norm_num)

/-- C5: `generateRecommendations` filters by risk tolerance before
scoring — a conservative user's output holds only low-risk instruments, a
moderate user's only low- or medium-risk instruments, and an aggressive
user's candidate set is the whole catalog. -/
theorem generateRecommendations_risk_filter :
    (∀ (user : User) (financialProfile : FinancialProfile)
        (riskAssessment : RiskAssessment),
        riskAssessment.tolerance = .conservative →
        ∀ rec ∈ generateRecommendations user financialProfile riskAssessment,
          rec.riskLevel = .low) ∧
      (∀ (user : User) (financialProfile : FinancialProfile)
          (riskAssessment : RiskAssessment),
        riskAssessment.tolerance = .moderate →
        ∀ rec ∈ generateRecommendations user financialProfile riskAssessment,
          rec.riskLevel = .low ∨ rec.riskLevel = .medium) ∧
      filterByRiskTolerance bangladeshInvestments .aggressive =
        bangladeshInvestments := by
  refine ⟨?_, ?_, rfl⟩
  · intro u fp ra htol rec hrec
    obtain ⟨inv, hmem, heq⟩ := mem_generateRecommendations hrec
    obtain ⟨-, -, hrl, -, -, -⟩ := recommendationFor_eq_some heq
    rw [htol] at hmem
    simp only [filterByRiskTolerance] at hmem
    rw [List.mem_filter] at hmem
    rw [hrl]
    exact of_decide_eq_true hmem.2
  · intro u fp ra htol rec hrec
    obtain ⟨inv, hmem, heq⟩ := mem_generateRecommendations hrec
    obtain ⟨-, -, hrl, -, -, -⟩ := recommendationFor_eq_some heq
    rw [htol] at hmem
    simp only [filterByRiskTolerance] at hmem
    rw [List.mem_filter] at hmem
    rw [hrl]
    exact of_decide_eq_true hmem.2

/-- Witness for C5: in the concrete conservative run the first emitted
recommendation is low-risk. -/
theorem generateRecommendations_risk_filter_witness :
    ({ userId := "u1", investmentType := .sanchayapatra,
       recommendedAmount := 15000, expectedReturn := 8.5,
       riskLevel := .low, suitabilityScore := 95 } :
        InvestmentRecommendation).riskLevel = .low := by
  refine generateRecommendations_risk_filter.1 sampleUser sampleProfile
    sampleConservative rfl _ ?_
  rw [generateRecommendations_sample]
  exact List.mem_cons_self _ _

/-- C6: every recommendation returned by `generateRecommendations` has
suitability score at least 60; a lower-scoring instrument is never
included. -/
theorem generateRecommendations_min_suitability :
    ∀ (user : User) (financialProfile : FinancialProfile)
      (riskAssessment : RiskAssessment),
      ∀ rec ∈ generateRecommendations user financialProfile riskAssessment,
        60 ≤ rec.suitabilityScore := by
  intro u fp ra rec hrec
  obtain ⟨inv, hmem, heq⟩ := mem_generateRecommendations hrec
  exact (recommendationFor_eq_some heq).2.1

/-- Witness for C6 at the first recommendation of the concrete
conservative run (score 95). -/
theorem generateRecommendations_min_suitability_witness :
    60 ≤ ({ userId := "u1", investmentType := .sanchayapatra,
            recommendedAmount := 15000, expectedReturn := 8.5,
            riskLevel := .low, suitabilityScore := 95 } :
          InvestmentRecommendation).suitabilityScore := by
  refine generateRecommendations_min_suitability sampleUser sampleProfile
    sampleConservative _ ?_
  rw [generateRecommendations_sample]
  exact List.mem_cons_self _ _

/-- C9: the list returned by `generateRecommendations` is sorted by
`suitabilityScore` in descending order: each recommendation's score is at
least its successor's. -/
theorem generateRecommendations_sorted :
    ∀ (user : User) (financialProfile : FinancialProfile)
      (riskAssessment : RiskAssessment),
      (generateRecommendations user financialProfile
          riskAssessment).Chain'
        (fun a b => b.suitabilityScore ≤ a.suitabilityScore) := by
  intro u fp ra
  have h : List.Sorted recOrder (generateRecommendations u fp ra) :=
    List.sorted_insertionSort recOrder _
  exact List.Pairwise.chain' h


/-- `scorePercentage ≤ 40` at `maxScore = 32` means a raw score of at most
12. -/
lemma pct_le_40_iff (s : ℕ) : ((s : ℚ) / 32) * 100 ≤ 40 ↔ s ≤ 12 := by
  rw [div_mul_eq_mul_div, div_le_iff₀ (by norm_num : (0 : ℚ) < 32)]
  constructor
  · intro h
    by_contra hs
    push_neg at hs
    have h13 : (13 : ℚ) ≤ (s : ℚ) := by exact_mod_cast hs
    nlinarith
  · intro h
    have h12 : ((s : ℚ)) ≤ 12 := by exact_mod_cast h
    nlinarith

/-- `scorePercentage ≤ 70` at `maxScore = 32` means a raw score of at most
22. -/
lemma pct_le_70_iff (s : ℕ) : ((s : ℚ) / 32) * 100 ≤ 70 ↔ s ≤ 22 := by
  rw [div_mul_eq_mul_div, div_le_iff₀ (by norm_num : (0 : ℚ) < 32)]
  constructor
  · intro h
    by_contra hs
    push_neg at hs
    have h23 : (23 : ℚ) ≤ (s : ℚ) := by exact_mod_cast hs
    nlinarith
  · intro h
    have h22 : ((s : ℚ)) ≤ 22 := by exact_mod_cast h
    nlinarith

/-- The percentage thresholds as integer raw-score thresholds. -/
lemma riskToleranceOfScore_eq (s : ℕ) :
    riskToleranceOfScore s =
      if s ≤ 12 then .conservative
      else if s ≤ 22 then .moderate
      else .aggressive := by
  have hm : ((riskQuestions.length * 4 : ℕ) : ℚ) = 32 := by
    rw [show riskQuestions.length = 8 from rfl]
    norm_num
  simp only [riskToleranceOfScore, hm, pct_le_40_iff, pct_le_70_iff]

/-- Each fold step of `calculateRiskScore` adds the selected option's
score; over fully-answered questions with option scores in [1, 4] the
total stays between `length` and `4 * length` above the accumulator. -/
lemma riskScore_foldl_bounds (answers : String → Option String) :
    ∀ (qs : List RiskQuestion) (acc : ℕ),
      (∀ q ∈ qs, ∃ opt ∈ q.options, answers q.id = some opt.1) →
      (∀ q ∈ qs, ∀ opt ∈ q.options, 1 ≤ opt.2 ∧ opt.2 ≤ 4) →
      acc + qs.length ≤ qs.foldl (riskScoreStep answers) acc ∧
        qs.foldl (riskScoreStep answers) acc ≤ acc + 4 * qs.length := by
  intro qs
  induction qs with
  | nil =>
      intro acc _ _
      simp
  | cons q qs ih =>
      intro acc hfull hopts
      obtain ⟨opt, hopt, hans⟩ := hfull q (List.mem_cons_self _ _)
      have hstep : ∃ scr, riskScoreStep answers acc q = acc + scr ∧
          1 ≤ scr ∧ scr ≤ 4 := by
        simp only [riskScoreStep, hans]
        cases hfind : q.options.find? (fun o => decide (o.1 = opt.1)) with
        | none =>
            exfalso
            have hnone := List.find?_eq_none.mp hfind opt hopt
            simp at hnone
        | some o =>
            refine ⟨o.2, rfl, ?_⟩
            exact hopts q (List.mem_cons_self _ _) o
              (List.mem_of_find?_eq_some hfind)
      obtain ⟨scr, hs, hs1, hs4⟩ := hstep
      rw [List.foldl_cons, hs]
      have hih := ih (acc + scr)
        (fun q' hq' => hfull q' (List.mem_cons_of_mem _ hq'))
        (fun q' hq' => hopts q' (List.mem_cons_of_mem _ hq'))
      simp only [List.length_cons]
      omega

/-- Every option of every risk question scores between 1 and 4. -/
lemma riskQuestions_scores_bounded :
    ∀ q ∈ riskQuestions, ∀ opt ∈ q.options, 1 ≤ opt.2 ∧ opt.2 ≤ 4 := by
  decide

/-- C4: over full answer sets (one option chosen per question) the raw
score is in [8, 32]; the tier is conservative iff
`rawScore/32*100 ≤ 40`, moderate iff it is in (40, 70], aggressive iff it
exceeds 70; and the tier is monotone non-decreasing in the raw score. -/
theorem calculateRiskScore_spec :
    (∀ answers : String → Option String, FullAnswers answers →
        8 ≤ calculateRiskScore answers ∧ calculateRiskScore answers ≤ 32) ∧
      (∀ s : ℕ,
        (riskToleranceOfScore s = .conservative ↔
            ((s : ℚ) / 32) * 100 ≤ 40) ∧
          (riskToleranceOfScore s = .moderate ↔
            (40 < ((s : ℚ) / 32) * 100 ∧ ((s : ℚ) / 32) * 100 ≤ 70)) ∧
          (riskToleranceOfScore s = .aggressive ↔
            70 < ((s : ℚ) / 32) * 100)) ∧
      (∀ s t : ℕ, s ≤ t →
        toleranceRank (riskToleranceOfScore s) ≤
          toleranceRank (riskToleranceOfScore t)) := by
  refine ⟨?_, ?_, ?_⟩
  · intro answers hfull
    have h := riskScore_foldl_bounds answers riskQuestions 0 hfull
      riskQuestions_scores_bounded
    rw [show riskQuestions.length = 8 from rfl] at h
    unfold calculateRiskScore
    omega
  · intro s
    refine ⟨?_, ?_, ?_⟩
    · rw [riskToleranceOfScore_eq, pct_le_40_iff]
      split_ifs with h1 h2 <;>
        simp [*,
          show (RiskTolerance.moderate = RiskTolerance.conservative) = False
            from by decide,
          show (RiskTolerance.aggressive = RiskTolerance.conservative) = False
            from by decide]
    · rw [riskToleranceOfScore_eq, lt_iff_not_le, pct_le_40_iff,
        pct_le_70_iff]
      split_ifs with h1 h2 <;>
        simp [*,
          show (RiskTolerance.conservative = RiskTolerance.moderate) = False
            from by decide,
          show (RiskTolerance.aggressive = RiskTolerance.moderate) = False
            from by decide]
    · rw [riskToleranceOfScore_eq, lt_iff_not_le, pct_le_70_iff]
      split_ifs with h1 h2 <;>
        simp [*,
          show (RiskTolerance.conservative = RiskTolerance.aggressive) = False
            from by decide,
          show (RiskTolerance.moderate = RiskTolerance.aggressive) = False
            from by decide]
      all_goals omega
  · intro s t hst
    rw [riskToleranceOfScore_eq, riskToleranceOfScore_eq]
    split_ifs <;> simp [toleranceRank]
    all_goals omega

/-- Witness for C4: the sample full answer set scores within [8, 32], and
monotonicity applied at raw scores 10 and 20. -/
theorem calculateRiskScore_spec_witness :
    8 ≤ calculateRiskScore sampleAnswers ∧
      calculateRiskScore sampleAnswers ≤ 32 ∧
      toleranceRank (riskToleranceOfScore 10) ≤
        toleranceRank (riskToleranceOfScore 20) := by
  have hfull : FullAnswers sampleAnswers :=
    show ∀ q ∈ riskQuestions, ∃ opt ∈ q.options,
        sampleAnswers q.id = some opt.1 from by decide
  obtain ⟨h1, h2⟩ := calculateRiskScore_spec.1 sampleAnswers hfull
  exact ⟨h1, h2, calculateRiskScore_spec.2.2 10 20 (by norm_num)⟩

end SmartFinBD
